import Mathlib

/-!
Verification of the orchestration logic of `src/examples/ssl_publish.cpp`
(Paho MQTT C++ sample `ssl_publish`).

The example is glue code around an external asynchronous MQTT client
library: it checks that two certificate-store files exist, builds connect
options (credentials, TLS stores, a last-will message), then sequentially
performs connect / publish / disconnect, waiting on each completion token.

We embed `main` as a deterministic function from an environment of
external outcomes (file existence, which library calls throw, whether the
bounded publish wait times out) to the process exit code together with the
trace of client operations invoked.
-/

namespace SslPublish

/-- Constant `DFLT_SERVER_URI` from ssl_publish.cpp line 53. -/
def DFLT_SERVER_URI : String := "mqtts://localhost:18884"

/-- Constant `DFLT_CLIENT_ID` from ssl_publish.cpp line 54. -/
def DFLT_CLIENT_ID : String := "ssl_publish_cpp"

/-- Constant `KEY_STORE` from ssl_publish.cpp line 56. -/
def KEY_STORE : String := "client.pem"

/-- Constant `TRUST_STORE` from ssl_publish.cpp line 57. -/
def TRUST_STORE : String := "test-root-ca.crt"

/-- Constant `LWT_TOPIC` from ssl_publish.cpp line 59. -/
def LWT_TOPIC : String := "events/disconnect"

/-- Constant `LWT_PAYLOAD` from ssl_publish.cpp line 60. -/
def LWT_PAYLOAD : String := "Last will and testament."

/-- Constant `QOS` from ssl_publish.cpp line 62. -/
def QOS : Nat := 1

/-- Constant `TIMEOUT` from ssl_publish.cpp line 63, in seconds. -/
def TIMEOUT_SECONDS : Nat := 10

/-- An MQTT message value: topic, payload, QoS and retain flag,
mirroring `mqtt::message(topic, payload, qos, retained)`. -/
structure Message where
  topic : String
  payload : String
  qos : Nat
  retained : Bool
  deriving DecidableEq, Repr

/-- The SSL options built on lines 123-129: trust-store path and
key-store path.  (The error-handler lambda only logs and carries no
data, so it is not part of the value.) -/
structure SslOptions where
  trustStore : String
  keyStore : String
  deriving DecidableEq, Repr

/-- The connect options built on lines 133-138: user name, password,
last-will message and SSL options. -/
structure ConnectOptions where
  userName : String
  password : String
  will : Message
  ssl : SslOptions
  deriving DecidableEq, Repr

/-- The last-will message built on line 131:
`mqtt::message(LWT_TOPIC, LWT_PAYLOAD, QOS, true)`. -/
def willmsg : Message :=
  { topic := LWT_TOPIC, payload := LWT_PAYLOAD, qos := QOS, retained := true }

/-- The SSL options value of lines 123-129. -/
def sslopts : SslOptions :=
  { trustStore := TRUST_STORE, keyStore := KEY_STORE }

/-- The connect options value of lines 133-138. -/
def connopts : ConnectOptions :=
  { userName := "testuser", password := "testpassword", will := willmsg, ssl := sslopts }

/-- The message published on line 154:
`mqtt::make_message("hello", "Hello secure C++ world!", QOS, false)`. -/
def helloMsg : Message :=
  { topic := "hello", payload := "Hello secure C++ world!", qos := QOS, retained := false }

/-- A client operation invoked by `main`, in program order.  `init`
records construction of the `mqtt::async_client` with its server URI and
client id (line 116); the other three are the client operations of the
try block. -/
inductive Event where
  | init (serverURI : String) (clientID : String)
  | connect (opts : ConnectOptions)
  | publish (msg : Message)
  | disconnect
  deriving DecidableEq, Repr

/-- Modelled from the spec: outcome of the bounded wait on the publish
completion token (`token::wait_for`), whose implementation (the MQTT
client library) is not part of the given source.  Per the spec, the wait
either completes successfully, times out ("the operation is abandoned
... if the broker does not acknowledge within the timeout window";
"Disconnect is invoked ... regardless of whether the publish wait timed
out"), or the operation fails and the failure is thrown as an MQTT
exception. -/
inductive WaitOutcome where
  | ok
  | timeout
  | failure
  deriving DecidableEq, Repr

/-- Modelled from the spec: the environment of outcomes produced by the
external world (the filesystem and the MQTT client library, neither of
which is part of the given source) during one run.  `connectFails` means
`client.connect` or the unbounded `wait` on its token throws an
`mqtt::exception`; `publishWait` is the outcome of the bounded
`wait_for` on the publish token (failure meaning `client.publish` or the
wait throws); `disconnectFails` means `client.disconnect` or the wait on
its token throws. -/
structure Env where
  trustStoreExists : Bool
  keyStoreExists : Bool
  connectFails : Bool
  publishWait : WaitOutcome
  disconnectFails : Bool
  deriving DecidableEq, Repr

/-- `serverURI` of line 93: `argv[1]` when given, else the default.
`argv` here models the command-line arguments after the program name. -/
def serverURI (argv : List String) : String :=
  match argv with
  | a :: _ => a
  | [] => DFLT_SERVER_URI

/-- `clientID` of line 94: `argv[2]` when given, else the default. -/
def clientID (argv : List String) : String :=
  match argv with
  | _ :: b :: _ => b
  | _ => DFLT_CLIENT_ID

/-- The embedding of `main` (ssl_publish.cpp lines 91-170): given the
command-line arguments and the environment of external outcomes, return
the process exit code and the trace of client operations invoked.
Control flow follows the source: the trust-store check (lines 99-105),
the key-store check (lines 107-112), then construction of the client and
of the connect options, and the try block performing connect (lines
146-148), publish with a bounded wait (line 155) whose result is
discarded, and disconnect (line 161); any `mqtt::exception` thrown in
the try block is caught on line 164 and turns into exit code 1. -/
def run (argv : List String) (env : Env) : Nat × List Event :=
  if env.trustStoreExists = false then
    (1, [])
  else if env.keyStoreExists = false then
    (1, [])
  else
    let t1 : List Event := [Event.init (serverURI argv) (clientID argv), Event.connect connopts]
    if env.connectFails then
      (1, t1)
    else
      let t2 := t1 ++ [Event.publish helloMsg]
      if env.publishWait = WaitOutcome.failure then
        (1, t2)
      else
        let t3 := t2 ++ [Event.disconnect]
        if env.disconnectFails then
          (1, t3)
        else
          (0, t3)

/-- True when the run enters the try block and some library call in it
throws an `mqtt::exception` that the catch on line 164 receives,
following the actual path: a connect failure, else a publish failure,
else a disconnect failure. -/
def exceptionCaught (env : Env) : Bool :=
  env.trustStoreExists && env.keyStoreExists &&
    (env.connectFails ||
      (decide (env.publishWait = WaitOutcome.failure) ||
        (decide (env.publishWait ≠ WaitOutcome.failure) && env.disconnectFails)))

/-- The id printed by `callback::delivery_complete` (lines 80-84): the
token's message id when the token pointer is non-null, `-1` otherwise.
The null-checked C++ pointer `mqtt::delivery_token_ptr` is embedded as
an `Option` over the token's message id. -/
def deliveryCompleteId (tok : Option Int) : Int :=
  match tok with
  | some mid => mid
  | none => -1

/-- Tests whether an event is a publish. -/
def Event.isPublish : Event → Bool
  | Event.publish _ => true
  | _ => false

end SslPublish

open SslPublish

/-- C1: in every run where both the trust-store and key-store files
exist and the connect operation succeeds, publish is invoked exactly
once, carrying topic "hello", payload "Hello secure C++ world!", QoS 1
and retain flag false. -/
theorem C1_publish_once_hello (argv : List String) (env : Env)
    (ht : env.trustStoreExists = true) (hk : env.keyStoreExists = true)
    (hc : env.connectFails = false) :
    (run argv env).2.filter Event.isPublish =
      [Event.publish { topic := "hello", payload := "Hello secure C++ world!",
                       qos := 1, retained := false }] := by
  cases hw : env.publishWait <;>
    cases hd : env.disconnectFails <;>
      simp [run, ht, hk, hc, hw, hd, Event.isPublish, helloMsg, QOS, List.filter]

/-- Witness for C1 at a concrete run. -/
theorem C1_publish_once_hello_witness :
    (run [] { trustStoreExists := true, keyStoreExists := true, connectFails := false,
              publishWait := WaitOutcome.ok, disconnectFails := false }).2.filter
        Event.isPublish =
      [Event.publish { topic := "hello", payload := "Hello secure C++ world!",
                       qos := 1, retained := false }] :=
  C1_publish_once_hello []
    { trustStoreExists := true, keyStoreExists := true, connectFails := false,
      publishWait := WaitOutcome.ok, disconnectFails := false } rfl rfl rfl

/-- C2: in every run that reaches the connect call (both store files
exist), the connect options carry a last-will message with topic
"events/disconnect", payload "Last will and testament.", QoS 1 and
retain flag true. -/
theorem C2_lwt_registered (argv : List String) (env : Env)
    (ht : env.trustStoreExists = true) (hk : env.keyStoreExists = true) :
    ∃ o, Event.connect o ∈ (run argv env).2 ∧
      o.will.topic = "events/disconnect" ∧
      o.will.payload = "Last will and testament." ∧
      o.will.qos = 1 ∧ o.will.retained = true := by
  refine ⟨connopts, ?_, rfl, rfl, rfl, rfl⟩
  cases hc : env.connectFails <;>
    cases hw : env.publishWait <;>
      cases hd : env.disconnectFails <;>
        simp [run, ht, hk, hc, hw, hd]

/-- Witness for C2 at a concrete run. -/
theorem C2_lwt_registered_witness :
    ∃ o, Event.connect o ∈
        (run [] { trustStoreExists := true, keyStoreExists := true, connectFails := false,
                  publishWait := WaitOutcome.ok, disconnectFails := false }).2 ∧
      o.will.topic = "events/disconnect" ∧
      o.will.payload = "Last will and testament." ∧
      o.will.qos = 1 ∧ o.will.retained = true :=
  C2_lwt_registered []
    { trustStoreExists := true, keyStoreExists := true, connectFails := false,
      publishWait := WaitOutcome.ok, disconnectFails := false } rfl rfl

/-- C3: in every run where the connect operation (or the wait on its
completion token) throws an MQTT exception, the exit code is 1 and
neither publish nor disconnect is ever invoked. -/
theorem C3_connect_failure_fatal (argv : List String) (env : Env)
    (ht : env.trustStoreExists = true) (hk : env.keyStoreExists = true)
    (hc : env.connectFails = true) :
    (run argv env).1 = 1 ∧
      (∀ m, Event.publish m ∉ (run argv env).2) ∧
      Event.disconnect ∉ (run argv env).2 := by
  simp [run, ht, hk, hc]

/-- Witness for C3 at a concrete run. -/
theorem C3_connect_failure_fatal_witness :
    (run [] { trustStoreExists := true, keyStoreExists := true, connectFails := true,
              publishWait := WaitOutcome.ok, disconnectFails := false }).1 = 1 ∧
      (∀ m, Event.publish m ∉
        (run [] { trustStoreExists := true, keyStoreExists := true, connectFails := true,
                  publishWait := WaitOutcome.ok, disconnectFails := false }).2) ∧
      Event.disconnect ∉
        (run [] { trustStoreExists := true, keyStoreExists := true, connectFails := true,
                  publishWait := WaitOutcome.ok, disconnectFails := false }).2 :=
  C3_connect_failure_fatal []
    { trustStoreExists := true, keyStoreExists := true, connectFails := true,
      publishWait := WaitOutcome.ok, disconnectFails := false } rfl rfl rfl

/-- C4: in every run where the trust-store file "test-root-ca.crt" does
not exist, the exit code is 1 and no client operation at all is invoked
(in particular no connect). -/
theorem C4_trust_store_missing (argv : List String) (env : Env)
    (ht : env.trustStoreExists = false) :
    (run argv env).1 = 1 ∧ (run argv env).2 = [] := by
  simp [run, ht]

/-- Witness for C4 at a concrete run. -/
theorem C4_trust_store_missing_witness :
    (run [] { trustStoreExists := false, keyStoreExists := true, connectFails := false,
              publishWait := WaitOutcome.ok, disconnectFails := false }).1 = 1 ∧
      (run [] { trustStoreExists := false, keyStoreExists := true, connectFails := false,
                publishWait := WaitOutcome.ok, disconnectFails := false }).2 = [] :=
  C4_trust_store_missing []
    { trustStoreExists := false, keyStoreExists := true, connectFails := false,
      publishWait := WaitOutcome.ok, disconnectFails := false } rfl

/-- C5: in every run where the trust-store file exists but the
key-store file "client.pem" does not, the exit code is 1 and no client
operation at all is invoked (in particular no connect). -/
theorem C5_key_store_missing (argv : List String) (env : Env)
    (ht : env.trustStoreExists = true) (hk : env.keyStoreExists = false) :
    (run argv env).1 = 1 ∧ (run argv env).2 = [] := by
  simp [run, ht, hk]

/-- Witness for C5 at a concrete run. -/
theorem C5_key_store_missing_witness :
    (run [] { trustStoreExists := true, keyStoreExists := false, connectFails := false,
              publishWait := WaitOutcome.ok, disconnectFails := false }).1 = 1 ∧
      (run [] { trustStoreExists := true, keyStoreExists := false, connectFails := false,
                publishWait := WaitOutcome.ok, disconnectFails := false }).2 = [] :=
  C5_key_store_missing []
    { trustStoreExists := true, keyStoreExists := false, connectFails := false,
      publishWait := WaitOutcome.ok, disconnectFails := false } rfl rfl

/-- C6: in every run where the wait on the publish completion token
returns (it completed or timed out, i.e. did not throw), disconnect is
invoked exactly once, and only after the publish: the trace is exactly
init, connect, publish, disconnect. -/
theorem C6_disconnect_once_after_publish (argv : List String) (env : Env)
    (ht : env.trustStoreExists = true) (hk : env.keyStoreExists = true)
    (hc : env.connectFails = false) (hw : env.publishWait ≠ WaitOutcome.failure) :
    (run argv env).2.count Event.disconnect = 1 ∧
      (run argv env).2 =
        [Event.init (serverURI argv) (clientID argv), Event.connect connopts,
         Event.publish helloMsg, Event.disconnect] := by
  cases hd : env.disconnectFails <;>
    simp [run, ht, hk, hc, hw, hd, List.count_cons]

/-- Witness for C6 at a concrete run. -/
theorem C6_disconnect_once_after_publish_witness :
    (run [] { trustStoreExists := true, keyStoreExists := true, connectFails := false,
              publishWait := WaitOutcome.timeout, disconnectFails := false }).2.count
        Event.disconnect = 1 ∧
      (run [] { trustStoreExists := true, keyStoreExists := true, connectFails := false,
                publishWait := WaitOutcome.timeout, disconnectFails := false }).2 =
        [Event.init (serverURI []) (clientID []), Event.connect connopts,
         Event.publish helloMsg, Event.disconnect] :=
  C6_disconnect_once_after_publish []
    { trustStoreExists := true, keyStoreExists := true, connectFails := false,
      publishWait := WaitOutcome.timeout, disconnectFails := false } rfl rfl rfl
    (by decide)

/-- C7 counterexample: a run whose publish wait times out exits with
code 0 and still invokes disconnect, while a run whose publish wait
fails exits with code 1 and never invokes disconnect — so a timeout
does not surface through the failure path; it is silently ignored. -/
theorem C7_timeout_cex :
    (run [] { trustStoreExists := true, keyStoreExists := true, connectFails := false,
              publishWait := WaitOutcome.timeout, disconnectFails := false }).1 = 0 ∧
      Event.disconnect ∈
        (run [] { trustStoreExists := true, keyStoreExists := true, connectFails := false,
                  publishWait := WaitOutcome.timeout, disconnectFails := false }).2 ∧
      (run [] { trustStoreExists := true, keyStoreExists := true, connectFails := false,
                publishWait := WaitOutcome.failure, disconnectFails := false }).1 = 1 ∧
      Event.disconnect ∉
        (run [] { trustStoreExists := true, keyStoreExists := true, connectFails := false,
                  publishWait := WaitOutcome.failure, disconnectFails := false }).2 := by
  decide

/-- C7 amended: a publish-wait timeout is not separately handled — the
result of the bounded wait is discarded, so a timed-out run behaves
exactly like a run whose publish wait completed successfully (same exit
code, same operation trace); the timeout is silently ignored rather
than surfacing as a wait failure. -/
theorem C7_timeout_silently_ignored (argv : List String) (env : Env)
    (hw : env.publishWait = WaitOutcome.timeout) :
    run argv env = run argv { env with publishWait := WaitOutcome.ok } := by
  simp [run, hw]

/-- Witness for the amended C7 at a concrete run. -/
theorem C7_timeout_silently_ignored_witness :
    run [] { trustStoreExists := true, keyStoreExists := true, connectFails := false,
             publishWait := WaitOutcome.timeout, disconnectFails := false } =
      run [] { trustStoreExists := true, keyStoreExists := true, connectFails := false,
               publishWait := WaitOutcome.ok, disconnectFails := false } :=
  C7_timeout_silently_ignored []
    { trustStoreExists := true, keyStoreExists := true, connectFails := false,
      publishWait := WaitOutcome.timeout, disconnectFails := false } rfl

/-- C8: the exit code is 0 exactly when the full sequence completes
without a caught exception (disconnect was invoked and no MQTT
exception was caught), and 1 exactly when a certificate-store file is
missing or an MQTT exception is caught. -/
theorem C8_exit_codes (argv : List String) (env : Env) :
    ((run argv env).1 = 0 ↔
        (Event.disconnect ∈ (run argv env).2 ∧ exceptionCaught env = false)) ∧
      ((run argv env).1 = 1 ↔
        (env.trustStoreExists = false ∨ env.keyStoreExists = false ∨
          exceptionCaught env = true)) := by
  cases ht : env.trustStoreExists <;> cases hk : env.keyStoreExists <;>
    cases hc : env.connectFails <;> cases hw : env.publishWait <;>
      cases hd : env.disconnectFails <;>
        simp [run, exceptionCaught, ht, hk, hc, hw, hd]

/-- C9: every connect invocation in every run carries the hard-coded
credentials user name "testuser" and password "testpassword" — for all
command-line arguments, since the quantification covers every `argv`. -/
theorem C9_hardcoded_credentials (argv : List String) (env : Env) (o : ConnectOptions)
    (h : Event.connect o ∈ (run argv env).2) :
    o.userName = "testuser" ∧ o.password = "testpassword" := by
  cases ht : env.trustStoreExists <;> cases hk : env.keyStoreExists <;>
    cases hc : env.connectFails <;> cases hw : env.publishWait <;>
      cases hd : env.disconnectFails <;>
        (simp [run, ht, hk, hc, hw, hd] at h <;> (subst h; exact ⟨rfl, rfl⟩))

/-- Witness for C9 at a concrete run. -/
theorem C9_hardcoded_credentials_witness :
    connopts.userName = "testuser" ∧ connopts.password = "testpassword" :=
  C9_hardcoded_credentials ["mqtts://example.org:8883", "otherclient"]
    { trustStoreExists := true, keyStoreExists := true, connectFails := false,
      publishWait := WaitOutcome.ok, disconnectFails := false } connopts
    (by decide)

/-- C10: the delivery-complete callback is total on the (possibly
null) token pointer: with a null token it prints -1 as the message id,
and with a non-null token it prints that token's message id, never
dereferencing a null pointer. -/
theorem C10_delivery_complete_null_safe :
    deliveryCompleteId none = -1 ∧ ∀ mid : Int, deliveryCompleteId (some mid) = mid :=
  ⟨rfl, fun _ => rfl⟩
